import Mathlib

/-
Verification of the glodroid/linaro_gcc_prebuilts repository.

The repository holds two files:
  * README.txt - a provenance/licensing manifest for a prebuilt
    OpenRISC musl cross-toolchain, with reproduction instructions;
  * lib/gcc/aarch64-linux-gnu/12.0.0/plugin/include/plugin-version.h -
    an auto-generated GCC plugin version header.

Both files are embedded below as data, faithful to the source text,
and the derived structures (the package manifest table, the
reproduction command list) are computed from that data by executable
functions.
-/

namespace LinaroGccPrebuilts

/-- The lines of src/README.txt, transcribed verbatim in order. -/
def readmeLines : List String :=
  [ "openrisc--musl--stable-2020.08-1"
  , ""
  , ""
  , "Toolchains are hosted here: http://toolchains.bootlin.com/"
  , ""
  , "All the licenses can be found here: http://toolchains.bootlin.com/downloads/releases/licenses/"
  , "All the sources can be found here: http://toolchains.bootlin.com/downloads/releases/sources/"
  , ""
  , "PACKAGE      VERSION              LICENSE"
  , "buildroot    2020.08-14-ge5a2a90  GPL-2.0+"
  , "gcc-final    9.3.0                unknown"
  , "binutils     2.33.1               GPL-3.0+, libiberty LGPL-2.1+"
  , "gmp          6.1.2                LGPL-3.0+ or GPL-2.0+"
  , "m4           1.4.18               GPL-3.0+"
  , "mpc          1.1.0                LGPL-3.0+"
  , "mpfr         4.0.2                LGPL-3.0+"
  , "gcc-initial  9.3.0                unknown"
  , "patchelf     0.9                  GPL-3.0+"
  , "musl           1.2.0    MIT"
  , "linux-headers  4.9.234  GPL-2.0"
  , ""
  , "For those who would like to reproduce the toolchain, you can just follow these steps:"
  , ""
  , "    git clone https://github.com/bootlin/buildroot-toolchains.git buildroot"
  , "    cd buildroot"
  , "    git checkout toolchains.bootlin.com-2020.08-1"
  , ""
  , "    curl http://toolchains.bootlin.com/downloads/releases/toolchains/openrisc/build_fragments/openrisc--musl--stable-2020.08-1.defconfig > .config"
  , "    make olddefconfig"
  , "    make"
  , ""
  , "This toolchain has been built, but the infrastructure does not contains enough"
  , "informations about testing it."
  , "This doesn't mean that this toolchain doesn't work, just that it hasn't been"
  , "fully tested."
  , "FLAG: CAN-NOT-TEST"
  ]

/-- A row of the README package manifest table: package name, version
string, license identifier. -/
structure ManifestRow where
  package : String
  version : String
  license : String
deriving DecidableEq, Repr

/-- Parse one line of the manifest table: the first whitespace-separated
field is the package name, the second the version, the rest of the line
is the license column. -/
def parseManifestRow (l : String) : ManifestRow :=
  match (l.toList.splitOn ' ').filter (fun s => !(s == [])) with
  | p :: v :: rest =>
      ⟨String.mk p, String.mk v, String.mk (List.intercalate [' '] rest)⟩
  | _ => ⟨"", "", ""⟩

/-- The README package manifest table: the eleven data rows under the
PACKAGE / VERSION / LICENSE header line, parsed from the README text. -/
def manifest : List ManifestRow :=
  ((readmeLines.drop 9).take 11).map parseManifestRow

/-- Look up the version column recorded for a package in the manifest. -/
def manifestVersion (pkg : String) : Option String :=
  (manifest.find? (fun r => r.package == pkg)).map ManifestRow.version

/-- The documented reproduction commands: exactly the indented command
lines of the README reproduction section, with the indentation removed. -/
def reproductionCommands : List String :=
  (readmeLines.filter (fun l => l.toList.take 4 == [' ', ' ', ' ', ' '])).map
    (fun l => String.mk (l.toList.drop 4))

/-- Modelled from the spec: the reproduction procedure as the spec
enumerates it - clone one external repository, check out one tag, fetch
one defconfig fragment into .config, then the two build commands. -/
def specReproductionSteps : List String :=
  [ "git clone https://github.com/bootlin/buildroot-toolchains.git buildroot"
  , "git checkout toolchains.bootlin.com-2020.08-1"
  , "curl http://toolchains.bootlin.com/downloads/releases/toolchains/openrisc/build_fragments/openrisc--musl--stable-2020.08-1.defconfig > .config"
  , "make olddefconfig"
  , "make"
  ]

/-- Modelled from the spec: the package names the spec enumerates for
the toolchain. -/
def specPackages : List String :=
  ["buildroot", "gcc", "binutils", "gmp", "mpfr", "mpc", "m4",
   "patchelf", "musl", "linux-headers"]

/-- Identify the two manifest rows gcc-final and gcc-initial with the
package gcc; every other manifest name is kept as is. -/
def normalizePackage (s : String) : String :=
  if s == "gcc-final" || s == "gcc-initial" then "gcc" else s

/-- The manifest package names with gcc-final and gcc-initial both
mapped to gcc. -/
def manifestPackagesNormalized : List String :=
  (manifest.map ManifestRow.package).map normalizePackage

/- plugin-version.h, embedded definition by definition. -/

/-- GCCPLUGIN_VERSION_MAJOR from plugin-version.h line 3. -/
def GCCPLUGIN_VERSION_MAJOR : Nat := 12

/-- GCCPLUGIN_VERSION_MINOR from plugin-version.h line 4. -/
def GCCPLUGIN_VERSION_MINOR : Nat := 0

/-- GCCPLUGIN_VERSION_PATCHLEVEL from plugin-version.h line 5. -/
def GCCPLUGIN_VERSION_PATCHLEVEL : Nat := 0

/-- The GCCPLUGIN_VERSION macro body of plugin-version.h line 6, as a
function of the three version macros it could draw on: it uses only the
major and minor components. -/
def gccpluginVersionOf (major minor patchlevel : Nat) : Nat :=
  major * 1000 + minor

/-- GCCPLUGIN_VERSION, the expansion of the macro at the values the
header defines. -/
def GCCPLUGIN_VERSION : Nat :=
  gccpluginVersionOf GCCPLUGIN_VERSION_MAJOR GCCPLUGIN_VERSION_MINOR
    GCCPLUGIN_VERSION_PATCHLEVEL

/-- basever from plugin-version.h line 8. -/
def basever : String := "12.0.0"

/-- datestamp from plugin-version.h line 9. -/
def datestamp : String := "20211007"

/-- devphase from plugin-version.h line 10. -/
def devphase : String := "experimental"

/-- revision from plugin-version.h line 11. -/
def revision : String :=
  "[master revision 6496ae5c9651206c9de43f63018a549a2ef2244e]"

/-- The struct plugin_gcc_version of the GCC plugin ABI: five string
fields in the order the header initializes them. -/
structure plugin_gcc_version where
  basever : String
  datestamp : String
  devphase : String
  revision : String
  configuration_arguments : String
deriving DecidableEq, Repr

/-- gcc_version from plugin-version.h lines 16 to 18. The identifier
configuration_arguments is declared in the included configargs.h, which
is not part of this repository, so it is a parameter here. -/
def gcc_version (configuration_arguments : String) : plugin_gcc_version :=
  ⟨basever, datestamp, devphase, revision, configuration_arguments⟩

/-- The files named by #include directives of plugin-version.h. -/
def headerIncludes : List String := ["configargs.h"]

/-- Identifiers plugin-version.h itself defines. -/
def headerDefinedIdentifiers : List String :=
  ["GCCPLUGIN_VERSION_MAJOR", "GCCPLUGIN_VERSION_MINOR",
   "GCCPLUGIN_VERSION_PATCHLEVEL", "GCCPLUGIN_VERSION",
   "basever", "datestamp", "devphase", "revision", "gcc_version"]

/-- Identifiers plugin-version.h references: the two macros used in the
GCCPLUGIN_VERSION body, the struct tag plugin_gcc_version, and the five
initializer expressions of gcc_version. -/
def headerUsedIdentifiers : List String :=
  ["GCCPLUGIN_VERSION_MAJOR", "GCCPLUGIN_VERSION_MINOR",
   "plugin_gcc_version", "basever", "datestamp", "devphase", "revision",
   "configuration_arguments"]

/-- The header is self-contained when it includes no other file and
every identifier it references is one it defines itself. -/
def headerSelfContained : Prop :=
  headerIncludes = [] ∧
    ∀ i ∈ headerUsedIdentifiers, i ∈ headerDefinedIdentifiers

instance : Decidable headerSelfContained := by
  unfold headerSelfContained
  infer_instance

/- Theorems settling the claims. -/

/-- Claim C1, counterexample: the claim that the header base version
string equals the GCC release version of the README manifest is false -
the manifest records 9.3.0 for gcc-final while basever is 12.0.0. -/
theorem C1_counterexample :
    manifestVersion "gcc-final" = some "9.3.0" ∧
    basever = "12.0.0" ∧
    manifestVersion "gcc-final" ≠ some basever := by decide

/-- Claim C1 as amended: the plugin version record is not consistent
with the toolchain the manifest describes - basever is 12.0.0, while
the README manifest records release 9.3.0 for both gcc-final and
gcc-initial, so the header was not copied from that toolchain build. -/
theorem C1_basever_mismatch :
    basever = "12.0.0" ∧
    manifestVersion "gcc-final" = some "9.3.0" ∧
    manifestVersion "gcc-initial" = some "9.3.0" ∧
    manifestVersion "gcc-final" ≠ some basever ∧
    manifestVersion "gcc-initial" ≠ some basever := by decide

/-- Claim C2, counterexample: the header is not self-contained - it
includes configargs.h, and it references the identifier
configuration_arguments which it does not define. -/
theorem C2_counterexample :
    "configargs.h" ∈ headerIncludes ∧
    "configuration_arguments" ∈ headerUsedIdentifiers ∧
    "configuration_arguments" ∉ headerDefinedIdentifiers ∧
    ¬ headerSelfContained := by decide

/-- Claim C2 as amended: the header is not self-contained; its one
include directive names configargs.h, and the identifiers it references
without defining are exactly the struct tag plugin_gcc_version and
configuration_arguments. -/
theorem C2_header_external_references :
    ¬ headerSelfContained ∧
    headerIncludes = ["configargs.h"] ∧
    headerUsedIdentifiers.filter
        (fun i => !(headerDefinedIdentifiers.contains i)) =
      ["plugin_gcc_version", "configuration_arguments"] := by decide

/-- Claim C3: the header defines the three GCC plugin version macros
with values 12, 0, 0, and GCCPLUGIN_VERSION is major times 1000 plus
minor, which evaluates to 12000. -/
theorem C3_gccplugin_version :
    GCCPLUGIN_VERSION =
      GCCPLUGIN_VERSION_MAJOR * 1000 + GCCPLUGIN_VERSION_MINOR ∧
    GCCPLUGIN_VERSION_MAJOR = 12 ∧
    GCCPLUGIN_VERSION_MINOR = 0 ∧
    GCCPLUGIN_VERSION_PATCHLEVEL = 0 ∧
    GCCPLUGIN_VERSION = 12000 := by decide

/-- Claim C4: for any value of the external configuration_arguments,
gcc_version is exactly the record built from basever, datestamp,
devphase, revision and configuration_arguments, in that order, and
nothing else - each field projects to the corresponding initializer. -/
theorem C4_gcc_version_fields :
    ∀ ca : String,
      gcc_version ca =
        plugin_gcc_version.mk basever datestamp devphase revision ca ∧
      (gcc_version ca).basever = basever ∧
      (gcc_version ca).datestamp = datestamp ∧
      (gcc_version ca).devphase = devphase ∧
      (gcc_version ca).revision = revision ∧
      (gcc_version ca).configuration_arguments = ca := by
  intro ca
  exact ⟨rfl, rfl, rfl, rfl, rfl, rfl⟩

/-- Claim C5, counterexample: the documented command sequence is not
exactly the four spec-listed steps - it contains a further command,
cd buildroot, that the spec-listed sequence does not. -/
theorem C5_counterexample :
    reproductionCommands ≠ specReproductionSteps ∧
    "cd buildroot" ∈ reproductionCommands ∧
    "cd buildroot" ∉ specReproductionSteps := by decide

/-- Claim C5 as amended: the documented reproduction procedure is the
four spec-listed steps in the spec order - clone, check out the tag,
fetch .config, then make olddefconfig and make - plus one additional
directory-change command, cd buildroot, between the clone and the
checkout. -/
theorem C5_reproduction_steps :
    "cd buildroot" ∈ reproductionCommands ∧
    reproductionCommands.filter (fun c => !(c == "cd buildroot")) =
      specReproductionSteps ∧
    reproductionCommands.take 2 =
      ["git clone https://github.com/bootlin/buildroot-toolchains.git buildroot",
       "cd buildroot"] := by decide

/-- Claim C6: after identifying the gcc-final and gcc-initial rows with
the package gcc, the set of package names in the README manifest is
exactly the set of packages the spec enumerates. -/
theorem C6_manifest_packages :
    manifestPackagesNormalized.toFinset = specPackages.toFinset := by decide

/-- Claim C7: every row of the README manifest table carries a
non-empty package name, a non-empty version string and a non-empty
license field. -/
theorem C7_manifest_rows_complete :
    ∀ r ∈ manifest, r.package ≠ "" ∧ r.version ≠ "" ∧ r.license ≠ "" := by
  decide

/-- Claim C7 witness: the gcc-final row, whose license column reads
unknown, is in the manifest and satisfies the property. -/
theorem C7_manifest_rows_complete_witness :
    ManifestRow.mk "gcc-final" "9.3.0" "unknown" ∈ manifest ∧
    ((ManifestRow.mk "gcc-final" "9.3.0" "unknown").package ≠ "" ∧
     (ManifestRow.mk "gcc-final" "9.3.0" "unknown").version ≠ "" ∧
     (ManifestRow.mk "gcc-final" "9.3.0" "unknown").license ≠ "") :=
  ⟨by decide,
   C7_manifest_rows_complete (ManifestRow.mk "gcc-final" "9.3.0" "unknown")
     (by decide)⟩

/-- Claim C8: the README contains the literal annotation line
FLAG: CAN-NOT-TEST as its last line, together with the prose lines
saying the toolchain has been built but not fully tested. -/
theorem C8_flag_can_not_test :
    "FLAG: CAN-NOT-TEST" ∈ readmeLines ∧
    readmeLines.getLast? = some "FLAG: CAN-NOT-TEST" ∧
    "This toolchain has been built, but the infrastructure does not contains enough"
      ∈ readmeLines ∧
    "fully tested." ∈ readmeLines := by decide

/-- Claim C9: the header records a pre-release development snapshot -
devphase is the non-empty string experimental, datestamp is 20211007,
and revision names the master-branch commit
6496ae5c9651206c9de43f63018a549a2ef2244e. -/
theorem C9_development_snapshot :
    devphase = "experimental" ∧
    devphase ≠ "" ∧
    datestamp = "20211007" ∧
    revision = "[master revision 6496ae5c9651206c9de43f63018a549a2ef2244e]" := by
  decide

/-- Claim C10: the GCCPLUGIN_VERSION macro body discards the patch
level - any two version triples agreeing on major and minor yield the
same combined value - and the header constant is this macro applied to
the three values the header defines. -/
theorem C10_patchlevel_discarded :
    (∀ major minor patch1 patch2 : Nat,
      gccpluginVersionOf major minor patch1 =
        gccpluginVersionOf major minor patch2) ∧
    GCCPLUGIN_VERSION =
      gccpluginVersionOf GCCPLUGIN_VERSION_MAJOR GCCPLUGIN_VERSION_MINOR
        GCCPLUGIN_VERSION_PATCHLEVEL :=
  ⟨fun _ _ _ _ => rfl, rfl⟩

end LinaroGccPrebuilts
